import Mathlib

/-!
Verification of the screen-mirror signaling server (main server file).

The development shallowly embeds the in-memory state of the server and the
event handlers that the specification describes:

* the device registry (a JS Map from device id to a device record),
* the pending-request correlation table (a JS Map from request id to either
  a browse entry holding a resolvable promise, or a download entry holding
  a streaming HTTP response sink),
* the socket event handlers (register, register_device, ping, offer, answer,
  ice-candidate, ftp-list-response, ftp-download-chunk, disconnect),
* the HTTP endpoints for registration, browse and download, and
* the periodic cleanup sweeps.

JS Maps are modelled as insertion-ordered association lists; the handlers
become pure functions from state to state together with an explicit list of
emitted effects (promise resolutions, socket emissions, broadcasts, writes
to the HTTP response sink, timer operations).  JS truthiness on strings and
numbers is modelled explicitly.  Where a handler would throw a TypeError
(calling an undefined function or reading a field of undefined), the model
stops at the throwing statement and records a typeError effect, since the
remainder of the handler body does not execute.
-/

/-- JS `x || y` on an optional string: `undefined` and the empty string are
falsy, so they fall through to the default. -/
def strOr (x : Option String) (y : String) : String :=
  match x with
  | some s => if s = "" then y else s
  | none => y

/-- JS `x || null` / truthiness test on an optional string: returns the
string exactly when it is present and non-empty. -/
def optStr (x : Option String) : Option String :=
  match x with
  | some s => if s = "" then none else some s
  | none => none

/-- JS `x || y` on an optional number: `undefined` and `0` are falsy. -/
def numOr (x : Option Nat) (y : Nat) : Nat :=
  match x with
  | some t => if t = 0 then y else t
  | none => y

/-- Lookup in a JS Map modelled as an association list (`Map.get`). -/
def mapGet {α : Type} (m : List (String × α)) (k : String) : Option α :=
  match m with
  | [] => none
  | (k1, v) :: rest => if k1 = k then some v else mapGet rest k

/-- JS `Map.set`: update the entry in place when the key is present
(preserving its position in iteration order), otherwise append. -/
def mapSet {α : Type} (m : List (String × α)) (k : String) (v : α) :
    List (String × α) :=
  match m with
  | [] => [(k, v)]
  | (k1, v1) :: rest =>
      if k1 = k then (k, v) :: rest else (k1, v1) :: mapSet rest k v

/-- JS `Map.delete`: remove the entry for the key.  A JS Map holds at most
one entry per key; on such maps removing every occurrence coincides with
removing the single entry. -/
def mapDelete {α : Type} (m : List (String × α)) (k : String) :
    List (String × α) :=
  match m with
  | [] => []
  | (k1, v1) :: rest =>
      if k1 = k then mapDelete rest k else (k1, v1) :: mapDelete rest k

/-- A device record as stored in the `devices` Map by the server. -/
structure Device where
  id : String
  name : String
  type : String
  socketId : Option String
  status : String
  connectedAt : Option Nat
  lastActivity : Option Nat
  ipAddress : Option String
deriving DecidableEq, Repr

/-- An opaque file descriptor carried through `ftp-list-response`; the
server never inspects it, it is passed through to the waiting promise and
to the broadcast. -/
structure FileItem where
  name : String
  type : String
  size : Nat
deriving DecidableEq, Repr

/-- One entry of the `pendingRequests` Map: a browse request parks the
promise resolvers and a `timestamp`; a download request parks the HTTP
response sink (whose headersSent flag we track here, since the entry holds
the only reference to it), a `startTime` and the id of its 10-minute
timeout timer.  Download entries have no `timestamp` and no `reject`
fields. -/
inductive PendingEntry where
  | browse (timestamp : Nat)
  | download (startTime : Nat) (timeoutId : Nat) (headersSent : Bool)
deriving DecidableEq, Repr

/-- The `{id, name, type, status}` projection broadcast to observers. -/
structure DeviceSummary where
  id : String
  name : String
  type : String
  status : String
deriving DecidableEq, Repr

/-- The message forwarded by the signaling relay handlers. -/
structure RelayMessage where
  fromDeviceId : Option String
  payload : String
deriving DecidableEq, Repr

/-- Observable effects emitted by the handlers. -/
inductive Effect where
  | emitRegistered (socketId : String) (deviceId : String)
  | broadcastDevices (snapshot : List DeviceSummary)
  | emitPong (timestamp : Nat)
  | resolveFuture (requestId : String) (files : Option (List FileItem))
  | rejectFuture (requestId : String) (message : String)
  | writeSink (requestId : String) (bytes : List Nat)
  | endSink (requestId : String)
  | sendErrorStatus (requestId : String) (message : String)
  | clearTimer (timerId : Nat)
  | sendListRequest (socketId : String) (requestId : String) (path : String)
  | sendDownloadRequest (socketId : String) (requestId : String) (path : String)
  | broadcastListResponse (requestId : String) (deviceId : Option String)
      (files : Option (List FileItem)) (error : Option String)
  | broadcastDownloadChunk (requestId : String) (deviceId : Option String)
      (chunk : Option String) (isLast : Bool) (error : Option String)
  | typeError
deriving DecidableEq, Repr

abbrev DevMap := List (String × Device)

abbrev PendMap := List (String × PendingEntry)

/-- CLEANUP_CONFIG.DEVICE_TTL: 30 minutes in milliseconds. -/
def DEVICE_TTL : Nat := 30 * 60 * 1000

/-- CLEANUP_CONFIG.PENDING_REQUEST_TIMEOUT: 30 seconds in milliseconds. -/
def PENDING_REQUEST_TIMEOUT : Nat := 30 * 1000

/-- CLEANUP_CONFIG.MAX_DEVICES. -/
def MAX_DEVICES : Nat := 100

/-- The timeout passed to setTimeout in the download endpoint: 10 minutes. -/
def DOWNLOAD_TIMEOUT_MS : Nat := 600000

/-- The snapshot built by broadcastDeviceList and sent to every connected
client. -/
def deviceSnapshot (devices : DevMap) : List DeviceSummary :=
  devices.map (fun kv => ⟨kv.2.id, kv.2.name, kv.2.type, kv.2.status⟩)

/-- Payload of the register / register_device socket events. -/
structure RegisterData where
  deviceId : Option String
  deviceName : Option String
  deviceType : Option String
  ipAddress : Option String
deriving DecidableEq, Repr

/-- Handler of the legacy `register` socket event: upsert the device record
with this socket as its handle, bind the device id to the socket, reply
`registered`, and broadcast the updated device list.  `freshId` stands for
the uuidv4() fallback used when `data.deviceId` is falsy. -/
def registerHandler (devices : DevMap) (socketId : String) (now : Nat)
    (freshId : String) (data : RegisterData) :
    DevMap × Option String × List Effect :=
  let deviceId := strOr data.deviceId freshId
  let devices1 := mapSet devices deviceId
    { id := deviceId
      name := strOr data.deviceName "Unknown Device"
      type := strOr data.deviceType "unknown"
      socketId := some socketId
      status := "online"
      connectedAt := some now
      lastActivity := some now
      ipAddress := optStr data.ipAddress }
  (devices1, some deviceId,
    [Effect.emitRegistered socketId deviceId,
     Effect.broadcastDevices (deviceSnapshot devices1)])

/-- Handler of the `register_device` socket event.  Identical to the legacy
handler except that a missing payload returns early, before any state
change or emission. -/
def registerDeviceHandler (devices : DevMap) (socketId : String) (now : Nat)
    (freshId : String) (data : Option RegisterData) :
    DevMap × Option String × List Effect :=
  match data with
  | none => (devices, none, [])
  | some d =>
      let deviceId := strOr d.deviceId freshId
      let devices1 := mapSet devices deviceId
        { id := deviceId
          name := strOr d.deviceName "Unknown Device"
          type := strOr d.deviceType "unknown"
          socketId := some socketId
          status := "online"
          connectedAt := some now
          lastActivity := some now
          ipAddress := optStr d.ipAddress }
      (devices1, some deviceId,
        [Effect.emitRegistered socketId deviceId,
         Effect.broadcastDevices (deviceSnapshot devices1)])

/-- Reply of an HTTP endpoint, as far as the claims need it. -/
inductive HttpReply where
  | ok
  | badRequest (message : String)
  | notFound (message : String)
deriving DecidableEq, Repr

/-- The POST /api/ftp/register endpoint: handle-less registration.  Both
`deviceId` and `ipAddress` are required (JS truthiness); on success the
record is stored with `socketId = null` and the device list is
broadcast. -/
def apiFtpRegister (devices : DevMap) (now : Nat)
    (deviceId deviceName ipAddress : Option String) :
    DevMap × HttpReply × List Effect :=
  match optStr deviceId, optStr ipAddress with
  | some did, some ip =>
      let devices1 := mapSet devices did
        { id := did
          name := strOr deviceName "Unknown Device"
          type := "ftp-only"
          socketId := none
          status := "online"
          connectedAt := some now
          lastActivity := some now
          ipAddress := some ip }
      (devices1, HttpReply.ok,
        [Effect.broadcastDevices (deviceSnapshot devices1)])
  | _, _ =>
      (devices, HttpReply.badRequest "deviceId and ipAddress are required", [])

/-- Handler of the `disconnect` socket event: when the socket had a bound
device id, delete that record and broadcast; the pendingRequests table is
not touched by this handler. -/
def disconnectHandler (devices : DevMap) (pending : PendMap)
    (socketDeviceId : Option String) : DevMap × PendMap × List Effect :=
  match socketDeviceId with
  | some did =>
      let devices1 := mapDelete devices did
      (devices1, pending,
        [Effect.broadcastDevices (deviceSnapshot devices1)])
  | none => (devices, pending, [])

/-- Handler of the keep-alive `ping` socket event: it only emits a pong
with the current timestamp and writes a log line naming the device id; it
does not read or write the devices Map. -/
def pingHandler (devices : DevMap) (socketDeviceId dataDeviceId : Option String)
    (now : Nat) : DevMap × List Effect :=
  (devices, [Effect.emitPong now])

/-- The activity timestamp the cleanup sweep reads from a record:
`device.lastActivity || device.connectedAt?.getTime() || 0`. -/
def effectiveActivity (d : Device) : Nat :=
  numOr d.lastActivity (numOr d.connectedAt 0)

/-- Comparator used when the sweep enforces MAX_DEVICES: ascending by
activity time (aTime - bTime). -/
def activityLe (a b : String × Device) : Bool :=
  decide (effectiveActivity a.2 ≤ effectiveActivity b.2)

/-- cleanupStaleDevices: delete every record whose activity timestamp is
more than DEVICE_TTL in the past; if the Map still holds more than
MAX_DEVICES records, sort the remaining entries by ascending activity time
and delete the first `size - MAX_DEVICES` of them.  The function only
writes log lines, so it emits no effects. -/
def cleanupStaleDevices (now : Nat) (devices : DevMap) :
    DevMap × List Effect :=
  let kept := devices.filter
    (fun kv => decide (now - effectiveActivity kv.2 ≤ DEVICE_TTL))
  if MAX_DEVICES < kept.length then
    let sorted := kept.mergeSort activityLe
    let removedKeys := (sorted.take (kept.length - MAX_DEVICES)).map Prod.fst
    (kept.filter (fun kv => decide (kv.1 ∉ removedKeys)), [])
  else
    (kept, [])

/-- The age field the pending-request sweep reads:
`request.timestamp || 0`.  Browse entries store `timestamp`; download
entries store only `startTime`, so for them the read yields 0. -/
def entryTimestampOrZero : PendingEntry → Nat
  | .browse ts => ts
  | .download _ _ _ => 0

/-- Whether the entry carries a `reject` resolver (only browse entries
do). -/
def hasReject : PendingEntry → Bool
  | .browse _ => true
  | .download _ _ _ => false

/-- cleanupPendingRequests: delete every entry whose
`now - (request.timestamp || 0)` exceeds PENDING_REQUEST_TIMEOUT, calling
`request.reject` first when that field exists. -/
def cleanupPendingRequests (now : Nat) (pending : PendMap) :
    PendMap × List Effect :=
  match pending with
  | [] => ([], [])
  | (rid, e) :: rest =>
      let r := cleanupPendingRequests now rest
      if PENDING_REQUEST_TIMEOUT < now - entryTimestampOrZero e then
        (r.1,
          (if hasReject e then [Effect.rejectFuture rid "Request timeout"]
           else []) ++ r.2)
      else ((rid, e) :: r.1, r.2)

/-- Outcome of the GET /api/ftp/browse endpoint before any response event
arrives. -/
inductive BrowseOutcome where
  | missingDeviceId
  | deviceNotFound
  | notConnected
  | requested (socketId : String) (requestId : String) (path : String)
deriving DecidableEq, Repr

/-- The GET /api/ftp/browse endpoint: validate the query, look the device
up, require a WebSocket handle, then park a browse entry under a fresh
request id and emit `ftp-list-request` to the device socket.  `rid` stands
for the generated request id and `now` for Date.now().  In every failure
branch the endpoint returns before touching the pendingRequests table, so
both Maps come back unchanged. -/
def apiFtpBrowse (devices : DevMap) (pending : PendMap)
    (deviceId : Option String) (path : String) (now : Nat) (rid : String) :
    BrowseOutcome × DevMap × PendMap :=
  match optStr deviceId with
  | none => (BrowseOutcome.missingDeviceId, devices, pending)
  | some did =>
      match mapGet devices did with
      | none => (BrowseOutcome.deviceNotFound, devices, pending)
      | some d =>
          match optStr d.socketId with
          | none => (BrowseOutcome.notConnected, devices, pending)
          | some sid =>
              (BrowseOutcome.requested sid rid path, devices,
                mapSet pending rid (PendingEntry.browse now))

/-- Outcome of the GET /api/ftp/download endpoint before any chunk
arrives. -/
inductive DownloadOutcome where
  | missingParams
  | deviceNotFound
  | notConnected
  | requested (socketId : String) (requestId : String) (path : String)
deriving DecidableEq, Repr

/-- The GET /api/ftp/download endpoint: validate the query, look the device
up, require a WebSocket handle, then park a download entry (holding the
streaming response whose headers are not yet sent, the start time, and the
id `tid` of the scheduled 10-minute timeout) and emit
`ftp-download-request` to the device socket. -/
def apiFtpDownload (devices : DevMap) (pending : PendMap)
    (deviceId pathQ : Option String) (now : Nat) (rid : String) (tid : Nat) :
    DownloadOutcome × DevMap × PendMap :=
  match optStr deviceId, optStr pathQ with
  | some did, some _ =>
      (match mapGet devices did with
       | none => (DownloadOutcome.deviceNotFound, devices, pending)
       | some d =>
           match optStr d.socketId with
           | none => (DownloadOutcome.notConnected, devices, pending)
           | some sid =>
               (DownloadOutcome.requested sid rid (strOr pathQ ""), devices,
                 mapSet pending rid (PendingEntry.download now tid false)))
  | _, _ => (DownloadOutcome.missingParams, devices, pending)

/-- The timeout scheduled by the browse endpoint: when it fires, if the
entry is still pending it is deleted and the promise is rejected with a
timeout error; otherwise nothing happens. -/
def browseTimeoutFire (pending : PendMap) (rid : String) :
    PendMap × List Effect :=
  if (mapGet pending rid).isSome then
    (mapDelete pending rid, [Effect.rejectFuture rid "Request timeout"])
  else (pending, [])

/-- Handler of the `offer` socket event: look the target up in the devices
Map; when found, emit the payload to `io.to(targetDevice.socketId)` with
the sender id attached; when not found, drop the message.  The returned
value is the emission performed, if any: the room targeted (the stored
socketId, possibly null) and the message. -/
def relayOffer (devices : DevMap) (senderDeviceId : Option String)
    (targetDeviceId : String) (sdp : String) :
    Option (Option String × RelayMessage) :=
  match mapGet devices targetDeviceId with
  | some d => some (d.socketId, ⟨senderDeviceId, sdp⟩)
  | none => none

/-- Handler of the `answer` socket event; same structure as the offer
handler with the sdp payload. -/
def relayAnswer (devices : DevMap) (senderDeviceId : Option String)
    (targetDeviceId : String) (sdp : String) :
    Option (Option String × RelayMessage) :=
  match mapGet devices targetDeviceId with
  | some d => some (d.socketId, ⟨senderDeviceId, sdp⟩)
  | none => none

/-- Handler of the `ice-candidate` socket event; same structure with the
candidate payload. -/
def relayIceCandidate (devices : DevMap) (senderDeviceId : Option String)
    (targetDeviceId : String) (candidate : String) :
    Option (Option String × RelayMessage) :=
  match mapGet devices targetDeviceId with
  | some d => some (d.socketId, ⟨senderDeviceId, candidate⟩)
  | none => none

/-- Whether the emission of a relay handler is delivered to the socket with
id `sid`.  An emission to room null reaches no socket: socket ids are
strings and no socket sits in a room named null. -/
def deliversTo (out : Option (Option String × RelayMessage)) (sid : String) :
    Bool :=
  match out with
  | some (some s, _) => s = sid
  | _ => false

/-- Value of a base64 alphabet character; padding and any other character
yield none and are skipped, as Buffer.from(chunk, base64) skips them. -/
def base64CharVal (c : Char) : Option Nat :=
  if 'A' ≤ c ∧ c ≤ 'Z' then some (c.toNat - 65)
  else if 'a' ≤ c ∧ c ≤ 'z' then some (c.toNat - 97 + 26)
  else if '0' ≤ c ∧ c ≤ '9' then some (c.toNat - 48 + 52)
  else if c = '+' then some 62
  else if c = '/' then some 63
  else none

/-- Pack groups of four 6-bit values into three bytes; a trailing group of
three values yields two bytes, of two values one byte, and a lone value
nothing. -/
def sextetsToBytes : List Nat → List Nat
  | a :: b :: c :: d :: rest =>
      (a * 4 + b / 16) :: ((b % 16) * 16 + c / 4) :: ((c % 4) * 64 + d)
        :: sextetsToBytes rest
  | [a, b, c] => [a * 4 + b / 16, (b % 16) * 16 + c / 4]
  | [a, b] => [a * 4 + b / 16]
  | _ => []

/-- The byte list produced by Buffer.from(chunk, base64). -/
def base64Decode (s : String) : List Nat :=
  sextetsToBytes (s.toList.filterMap base64CharVal)

/-- Handler of the `ftp-list-response` socket event.  When the request id
is pending, the stored resolver is called (reject on a truthy error field,
resolve otherwise) and the entry is deleted; then the full payload is
re-broadcast to all connected clients.  When the id is not pending the
handler skips straight to the broadcast.  A download entry stores no
resolve or reject function, so on such an entry the call throws a
TypeError before the delete and before the broadcast. -/
def ftpListResponse (pending : PendMap) (sockDeviceId : Option String)
    (rid : String) (files : Option (List FileItem)) (error : Option String) :
    PendMap × List Effect :=
  let bcast := Effect.broadcastListResponse rid sockDeviceId files error
  match mapGet pending rid with
  | none => (pending, [bcast])
  | some (PendingEntry.browse _) =>
      match optStr error with
      | some e => (mapDelete pending rid, [Effect.rejectFuture rid e, bcast])
      | none =>
          (mapDelete pending rid, [Effect.resolveFuture rid files, bcast])
  | some (PendingEntry.download _ _ _) => (pending, [Effect.typeError])

/-- Handler of the `ftp-download-chunk` socket event.  When the request id
maps to a download entry: a truthy error clears the timer, deletes the
entry and fails the response (status 500 before any byte went out, a bare
end afterwards); otherwise a truthy chunk is base64-decoded and written to
the response, and a truthy isLast ends the response, clears the timer and
deletes the entry.  In every non-throwing path the full payload is then
re-broadcast to all connected clients, also when the id is unknown.  A
browse entry stores none of the destructured response, timeoutId and
startTime fields, so using the undefined response throws a TypeError at
the first access: after the delete on the error path, at the write when a
chunk is present, at the end when isLast is set; only a chunkless,
errorless, non-last event on a browse entry reaches the broadcast. -/
def ftpDownloadChunk (pending : PendMap) (sockDeviceId : Option String)
    (rid : String) (chunk : Option String) (isLast : Bool)
    (error : Option String) : PendMap × List Effect :=
  let bcast := Effect.broadcastDownloadChunk rid sockDeviceId chunk isLast error
  match mapGet pending rid with
  | none => (pending, [bcast])
  | some (PendingEntry.download st tid hs) =>
      match optStr error with
      | some e =>
          (mapDelete pending rid,
            [Effect.clearTimer tid,
             if hs then Effect.endSink rid else Effect.sendErrorStatus rid e,
             bcast])
      | none =>
          let writes := match optStr chunk with
            | some c => [Effect.writeSink rid (base64Decode c)]
            | none => []
          if isLast then
            (mapDelete pending rid,
              writes ++ [Effect.endSink rid, Effect.clearTimer tid, bcast])
          else
            (mapSet pending rid
              (PendingEntry.download st tid (hs || (optStr chunk).isSome)),
              writes ++ [bcast])
  | some (PendingEntry.browse _) =>
      match optStr error with
      | some _ => (mapDelete pending rid, [Effect.typeError])
      | none =>
          match optStr chunk with
          | some _ => (pending, [Effect.typeError])
          | none =>
              if isLast then (pending, [Effect.typeError])
              else (pending, [bcast])

/-- An event that can settle a pending browse request id: the response
event from the device, or the firing of the scheduled timeout. -/
inductive ListEvent where
  | response (files : Option (List FileItem)) (error : Option String)
  | timeoutFire
deriving DecidableEq, Repr

/-- Dispatch one settling event for the browse request id `rid`. -/
def listStep (sockDeviceId : Option String) (rid : String)
    (pending : PendMap) : ListEvent → PendMap × List Effect
  | ListEvent.response files error =>
      ftpListResponse pending sockDeviceId rid files error
  | ListEvent.timeoutFire => browseTimeoutFire pending rid

/-- Run a sequence of settling events for `rid` in order, accumulating the
effects. -/
def listRun (sockDeviceId : Option String) (rid : String)
    (pending : PendMap) : List ListEvent → PendMap × List Effect
  | [] => (pending, [])
  | ev :: rest =>
      let r1 := listStep sockDeviceId rid pending ev
      let r2 := listRun sockDeviceId rid r1.1 rest
      (r2.1, r1.2 ++ r2.2)

/-- Whether an effect resolves or rejects the future of request id
`rid`. -/
def isResolutionFor (rid : String) : Effect → Bool
  | Effect.resolveFuture r _ => r = rid
  | Effect.rejectFuture r _ => r = rid
  | _ => false

/-- Run a sequence of error-free `ftp-download-chunk` events
`(chunk, isLast)` for `rid` in order, accumulating the effects. -/
def chunkRun (sockDeviceId : Option String) (rid : String)
    (pending : PendMap) : List (String × Bool) → PendMap × List Effect
  | [] => (pending, [])
  | (c, l) :: rest =>
      let r1 := ftpDownloadChunk pending sockDeviceId rid (some c) l none
      let r2 := chunkRun sockDeviceId rid r1.1 rest
      (r2.1, r1.2 ++ r2.2)

/-- The scripted chunk sequence of the claim: every chunk of `body` with
isLast false, then `lastc` with isLast true. -/
def chunkEventsOf (body : List String) (lastc : String) :
    List (String × Bool) :=
  body.map (fun c => (c, false)) ++ [(lastc, true)]

/-- The byte payloads written to the sink of `rid`, in order. -/
def writesFor (rid : String) (effs : List Effect) : List (List Nat) :=
  effs.filterMap fun e =>
    match e with
    | Effect.writeSink r bs => if r = rid then some bs else none
    | _ => none

/-- Whether an effect closes the sink of `rid`. -/
def isEndSinkFor (rid : String) : Effect → Bool
  | Effect.endSink r => r = rid
  | _ => false

theorem mapGet_mapDelete_self {α : Type} (m : List (String × α)) (k : String) :
    mapGet (mapDelete m k) k = none := by
  induction m with
  | nil => rfl
  | cons kv rest ih =>
      obtain ⟨k1, v1⟩ := kv
      by_cases h : k1 = k <;> simp [mapDelete, mapGet, h, ih]

theorem mapGet_mapDelete_ne {α : Type} (m : List (String × α)) (k k2 : String)
    (h : k2 ≠ k) : mapGet (mapDelete m k) k2 = mapGet m k2 := by
  induction m with
  | nil => rfl
  | cons kv rest ih =>
      obtain ⟨k1, v1⟩ := kv
      simp only [mapDelete]
      by_cases h1 : k1 = k
      · rw [if_pos h1, ih]
        simp only [mapGet]
        rw [if_neg (by rw [h1]; exact fun hh => h hh.symm)]
      · rw [if_neg h1]
        simp only [mapGet]
        by_cases h2 : k1 = k2
        · rw [if_pos h2, if_pos h2]
        · rw [if_neg h2, if_neg h2, ih]

theorem mapGet_mapSet_self {α : Type} (m : List (String × α)) (k : String)
    (v : α) : mapGet (mapSet m k v) k = some v := by
  induction m with
  | nil => simp [mapSet, mapGet]
  | cons kv rest ih =>
      obtain ⟨k1, v1⟩ := kv
      by_cases h : k1 = k <;> simp [mapSet, mapGet, h, ih]

theorem mapGet_mapSet_ne {α : Type} (m : List (String × α)) (k k2 : String)
    (v : α) (h : k2 ≠ k) : mapGet (mapSet m k v) k2 = mapGet m k2 := by
  induction m with
  | nil =>
      simp only [mapSet, mapGet]
      rw [if_neg (fun hh : k = k2 => h hh.symm)]
  | cons kv rest ih =>
      obtain ⟨k1, v1⟩ := kv
      simp only [mapSet]
      by_cases h1 : k1 = k
      · rw [if_pos h1]
        have hk1 : ¬ k1 = k2 := by rw [h1]; exact fun hh => h hh.symm
        simp only [mapGet]
        rw [if_neg (fun hh : k = k2 => h hh.symm), if_neg hk1]
      · rw [if_neg h1]
        simp only [mapGet]
        by_cases h2 : k1 = k2
        · rw [if_pos h2, if_pos h2]
        · rw [if_neg h2, if_neg h2, ih]

/-- C8: browse(deviceId, path) fails synchronously with NotFound when
deviceId has no record in the registry, and with NotConnected when a record
exists whose socketId is null; in both cases the outcome carries no
correlation id and no request emission, and both the registry and the
pending-request table are returned unchanged. -/
theorem c8_browse_sync_failures (devices : DevMap) (pending : PendMap)
    (did path : String) (now : Nat) (rid : String) (hdid : did ≠ "") :
    (mapGet devices did = none →
      apiFtpBrowse devices pending (some did) path now rid =
        (BrowseOutcome.deviceNotFound, devices, pending)) ∧
    (∀ d, mapGet devices did = some d → d.socketId = none →
      apiFtpBrowse devices pending (some did) path now rid =
        (BrowseOutcome.notConnected, devices, pending)) := by
  constructor
  · intro hnone
    simp [apiFtpBrowse, optStr, hdid, hnone]
  · intro d hd hsock
    simp [apiFtpBrowse, optStr, hdid, hd, hsock]

def c8Dev : Device :=
  { id := "dev-1", name := "D", type := "ftp-only", socketId := none,
    status := "online", connectedAt := some 1, lastActivity := some 1,
    ipAddress := some "10.0.0.1" }

theorem c8_browse_sync_failures_witness :
    apiFtpBrowse [] [] (some "dev-1") "/" 1000 "r1" =
      (BrowseOutcome.deviceNotFound, [], []) ∧
    apiFtpBrowse [("dev-1", c8Dev)] [] (some "dev-1") "/" 1000 "r1" =
      (BrowseOutcome.notConnected, [("dev-1", c8Dev)], []) :=
  ⟨(c8_browse_sync_failures [] [] "dev-1" "/" 1000 "r1" (by decide)).1
      (by decide),
   (c8_browse_sync_failures [("dev-1", c8Dev)] [] "dev-1" "/" 1000 "r1"
      (by decide)).2 c8Dev (by simp [mapGet]) rfl⟩

/-- C9: the disconnect handler for a socket bound to a device id removes
exactly that registry record and broadcasts the new snapshot, while the
pending-request table comes back completely unchanged: no entry of any
device is rejected, resolved or removed, and no effect other than the
snapshot broadcast is emitted. -/
theorem c9_disconnect_frame (devices : DevMap) (pending : PendMap)
    (did : String) :
    (disconnectHandler devices pending (some did)).2.1 = pending ∧
    (disconnectHandler devices pending (some did)).1 = mapDelete devices did ∧
    mapGet (disconnectHandler devices pending (some did)).1 did = none ∧
    (∀ k, k ≠ did →
      mapGet (disconnectHandler devices pending (some did)).1 k =
        mapGet devices k) ∧
    (disconnectHandler devices pending (some did)).2.2 =
      [Effect.broadcastDevices (deviceSnapshot (mapDelete devices did))] := by
  refine ⟨rfl, rfl, ?_, ?_, rfl⟩
  · exact mapGet_mapDelete_self devices did
  · intro k hk
    exact mapGet_mapDelete_ne devices did k hk

def c9Dev : Device :=
  { id := "a", name := "A", type := "android", socketId := some "s1",
    status := "online", connectedAt := some 1, lastActivity := some 1,
    ipAddress := none }

theorem c9_disconnect_frame_witness :
    (disconnectHandler [("a", c9Dev)] [("r", PendingEntry.browse 5)]
        (some "a")).2.1 = [("r", PendingEntry.browse 5)] ∧
    mapGet (disconnectHandler [("a", c9Dev)] [("r", PendingEntry.browse 5)]
        (some "a")).1 "b" = mapGet [("a", c9Dev)] "b" :=
  ⟨(c9_disconnect_frame [("a", c9Dev)] [("r", PendingEntry.browse 5)] "a").1,
   (c9_disconnect_frame [("a", c9Dev)] [("r", PendingEntry.browse 5)]
      "a").2.2.2.1 "b" (by decide)⟩

/-- C5: for each signaling relay handler (offer, answer, ice-candidate):
an absent target id drops the message with nothing forwarded; any delivery
to a socket requires a registry record whose socketId is exactly that
socket, and the delivered message is the sender id with the payload; a
record whose socketId is null is delivered to no socket, and in particular
a record created through the handle-less HTTP registration endpoint is
never a forwarding target. -/
theorem c5_signaling_relay :
    (∀ (devices : DevMap) (snd : Option String) (tgt p : String),
      mapGet devices tgt = none →
        relayOffer devices snd tgt p = none ∧
        relayAnswer devices snd tgt p = none ∧
        relayIceCandidate devices snd tgt p = none) ∧
    (∀ (devices : DevMap) (snd : Option String) (tgt p sid : String)
        (m : RelayMessage),
      (relayOffer devices snd tgt p = some (some sid, m) ∨
       relayAnswer devices snd tgt p = some (some sid, m) ∨
       relayIceCandidate devices snd tgt p = some (some sid, m)) →
        ∃ d, mapGet devices tgt = some d ∧ d.socketId = some sid ∧
          m = ⟨snd, p⟩) ∧
    (∀ (devices : DevMap) (snd : Option String) (tgt p : String) (d : Device),
      mapGet devices tgt = some d → d.socketId = none →
        ∀ sid, deliversTo (relayOffer devices snd tgt p) sid = false ∧
          deliversTo (relayAnswer devices snd tgt p) sid = false ∧
          deliversTo (relayIceCandidate devices snd tgt p) sid = false) ∧
    (∀ (devices : DevMap) (now : Nat) (did : String) (dn : Option String)
        (ip : String) (snd : Option String) (p : String),
      did ≠ "" → ip ≠ "" →
        ∀ sid, deliversTo (relayOffer
            (apiFtpRegister devices now (some did) dn (some ip)).1
            snd did p) sid = false) := by
  refine ⟨?_, ?_, ?_, ?_⟩
  · intro devices snd tgt p hnone
    simp [relayOffer, relayAnswer, relayIceCandidate, hnone]
  · intro devices snd tgt p sid m h
    cases hm : mapGet devices tgt with
    | none =>
        rcases h with h | h | h <;>
          simp [relayOffer, relayAnswer, relayIceCandidate, hm] at h
    | some d =>
        refine ⟨d, rfl, ?_⟩
        rcases h with h | h | h <;>
          · simp only [relayOffer, relayAnswer, relayIceCandidate, hm,
              Option.some.injEq, Prod.mk.injEq] at h
            exact ⟨h.1, h.2.symm⟩
  · intro devices snd tgt p d hd hsock sid
    simp [relayOffer, relayAnswer, relayIceCandidate, hd, hsock, deliversTo]
  · intro devices now did dn ip snd p hdid hip sid
    have hreg : (apiFtpRegister devices now (some did) dn (some ip)).1 =
        mapSet devices did
          { id := did, name := strOr dn "Unknown Device", type := "ftp-only",
            socketId := none, status := "online", connectedAt := some now,
            lastActivity := some now, ipAddress := some ip } := by
      simp [apiFtpRegister, optStr, hdid, hip]
    rw [hreg]
    simp [relayOffer, mapGet_mapSet_self, deliversTo]

theorem c5_signaling_relay_witness :
    deliversTo (relayOffer
        (apiFtpRegister [] 7 (some "dev-9") none (some "10.1.1.1")).1
        (some "sender") "dev-9" "sdp-blob") "sock-1" = false :=
  c5_signaling_relay.2.2.2 [] 7 "dev-9" none "10.1.1.1" (some "sender")
    "sdp-blob" (by decide) (by decide) "sock-1"

def c6Dev : Device :=
  { id := "d", name := "N", type := "android", socketId := some "s",
    status := "online", connectedAt := some 100, lastActivity := some 100,
    ipAddress := none }

/-- C6 counterexample: after the ping handler runs at time 5000 for a
socket bound to device d, the record of d still carries lastActivity 100,
not the current time; and a device whose only activity is pinging is still
evicted by the TTL sweep. -/
theorem c6_ping_counterexample :
    (mapGet (pingHandler [("d", c6Dev)] (some "d") none 5000).1 "d").map
        Device.lastActivity = some (some 100) ∧
    (100 : Nat) ≠ 5000 ∧
    (cleanupStaleDevices (100 + DEVICE_TTL + 1)
        (pingHandler [("d", c6Dev)] (some "d") none (100 + DEVICE_TTL)).1).1 =
      [] := by
  refine ⟨rfl, by decide, rfl⟩

/-- C6 amended: the ping handler only emits a pong carrying the current
timestamp (and writes a log line); it neither reads nor writes the
registry, so lastActivity is unchanged and a later TTL sweep behaves
exactly as if the ping had never happened — a device that only pings is
still evicted once its registration-time activity stamp ages past the
TTL. -/
theorem c6_ping_amended (devices : DevMap) (sdid ddid : Option String)
    (now : Nat) :
    pingHandler devices sdid ddid now = (devices, [Effect.emitPong now]) ∧
    ∀ now2, cleanupStaleDevices now2 (pingHandler devices sdid ddid now).1 =
      cleanupStaleDevices now2 devices :=
  ⟨rfl, fun _ => rfl⟩

def c4Dev : Device :=
  { id := "d1", name := "N", type := "android", socketId := some "s1",
    status := "online", connectedAt := some 1, lastActivity := some 1,
    ipAddress := none }

/-- C4 counterexample: the periodic eviction sweep removes a stale device,
visibly changing the registry, yet emits no snapshot broadcast (it emits
no effect at all). -/
theorem c4_sweep_counterexample :
    (cleanupStaleDevices 2000000 [("d1", c4Dev)]).1 = [] ∧
    [("d1", c4Dev)] ≠ ([] : DevMap) ∧
    (cleanupStaleDevices 2000000 [("d1", c4Dev)]).2 = [] := by
  refine ⟨rfl, by decide, rfl⟩

/-- C4 amended: socket registration (register and register_device),
handle-less HTTP registration, and removal on transport disconnect each
publish the full current snapshot to every connected observer; the
periodic eviction sweep, however, changes the registry without publishing
anything. -/
theorem c4_broadcast_amended :
    (∀ (devices : DevMap) (sid : String) (now : Nat) (fid : String)
        (data : RegisterData),
      Effect.broadcastDevices
          (deviceSnapshot (registerHandler devices sid now fid data).1) ∈
        (registerHandler devices sid now fid data).2.2) ∧
    (∀ (devices : DevMap) (sid : String) (now : Nat) (fid : String)
        (d : RegisterData),
      Effect.broadcastDevices
          (deviceSnapshot
            (registerDeviceHandler devices sid now fid (some d)).1) ∈
        (registerDeviceHandler devices sid now fid (some d)).2.2) ∧
    (∀ (devices : DevMap) (now : Nat) (did : String) (dn : Option String)
        (ip : String), did ≠ "" → ip ≠ "" →
      Effect.broadcastDevices
          (deviceSnapshot
            (apiFtpRegister devices now (some did) dn (some ip)).1) ∈
        (apiFtpRegister devices now (some did) dn (some ip)).2.2) ∧
    (∀ (devices : DevMap) (pending : PendMap) (did : String),
      Effect.broadcastDevices
          (deviceSnapshot (disconnectHandler devices pending (some did)).1) ∈
        (disconnectHandler devices pending (some did)).2.2) ∧
    (∀ (now : Nat) (devices : DevMap),
      (cleanupStaleDevices now devices).2 = []) := by
  refine ⟨?_, ?_, ?_, ?_, ?_⟩
  · intro devices sid now fid data
    simp [registerHandler]
  · intro devices sid now fid d
    simp [registerDeviceHandler]
  · intro devices now did dn ip hdid hip
    simp [apiFtpRegister, optStr, hdid, hip]
  · intro devices pending did
    simp [disconnectHandler]
  · intro now devices
    unfold cleanupStaleDevices
    dsimp only
    split <;> rfl

theorem c4_broadcast_amended_witness :
    Effect.broadcastDevices
        (deviceSnapshot (apiFtpRegister [] 5 (some "dx") none
          (some "10.0.0.2")).1) ∈
      (apiFtpRegister [] 5 (some "dx") none (some "10.0.0.2")).2.2 :=
  c4_broadcast_amended.2.2.1 [] 5 "dx" none "10.0.0.2" (by decide) (by decide)

def c3Entry : PendingEntry := PendingEntry.download 940000 1 false

/-- C3: evaluation at the failing input.  A streamed download entry created
60 seconds ago — well inside its 10-minute timeout window — is removed by
the pending-request sweep: the sweep reads the timestamp field, which
download entries never set (they store startTime), so their age computes
as the full clock value and always exceeds the 30-second maximum age. -/
theorem c3_sweep_removes_inflight_download :
    1000000 - 940000 ≤ DOWNLOAD_TIMEOUT_MS ∧
    cleanupPendingRequests 1000000 [("dl1", c3Entry)] = ([], []) := by
  refine ⟨by decide, rfl⟩

def c10Pend : PendMap := [("req1", PendingEntry.download 500 7 false)]

/-- C10 counterexample: an ftp-list-response arriving for a request id that
is pending as a streamed download makes the handler throw (the entry has
no resolve function) before it reaches the io.emit, so no broadcast is
emitted for that event. -/
theorem c10_broadcast_counterexample :
    ftpListResponse c10Pend (some "devA") "req1" (some []) none =
      (c10Pend, [Effect.typeError]) ∧
    Effect.broadcastListResponse "req1" (some "devA") (some []) none ∉
      (ftpListResponse c10Pend (some "devA") "req1" (some []) none).2 := by
  refine ⟨rfl, by decide⟩

/-- C10 amended: every ftp-list-response whose request id is unknown or
pending as a browse entry, and every ftp-download-chunk whose request id is
unknown or pending as a download entry, is re-emitted as a global
broadcast carrying the full payload — in particular also when the id is
unknown or already resolved and the event is otherwise discarded.  Only an
event hitting a pending entry of the mismatched kind throws before the
broadcast. -/
theorem c10_broadcast_amended :
    (∀ (pending : PendMap) (sdid : Option String) (rid : String)
        (files : Option (List FileItem)) (err : Option String),
      (mapGet pending rid = none ∨
        ∃ ts, mapGet pending rid = some (PendingEntry.browse ts)) →
      Effect.broadcastListResponse rid sdid files err ∈
        (ftpListResponse pending sdid rid files err).2) ∧
    (∀ (pending : PendMap) (sdid : Option String) (rid : String)
        (chunk : Option String) (isLast : Bool) (err : Option String),
      (mapGet pending rid = none ∨
        ∃ st tid hs,
          mapGet pending rid = some (PendingEntry.download st tid hs)) →
      Effect.broadcastDownloadChunk rid sdid chunk isLast err ∈
        (ftpDownloadChunk pending sdid rid chunk isLast err).2) := by
  constructor
  · intro pending sdid rid files err h
    rcases h with h | ⟨ts, h⟩
    · simp [ftpListResponse, h]
    · cases hoe : optStr err <;> simp [ftpListResponse, h, hoe]
  · intro pending sdid rid chunk isLast err h
    rcases h with h | ⟨st, tid, hs, h⟩
    · simp [ftpDownloadChunk, h]
    · cases hoe : optStr err
      · cases hoc : optStr chunk <;> cases isLast <;>
          simp [ftpDownloadChunk, h, hoe, hoc]
      · simp [ftpDownloadChunk, h, hoe]

theorem c10_broadcast_amended_witness :
    Effect.broadcastListResponse "rq" none none none ∈
      (ftpListResponse [] none "rq" none none).2 :=
  c10_broadcast_amended.1 [] none "rq" none none (Or.inl rfl)

theorem listStep_absent (sdid : Option String) (rid : String) (q : PendMap)
    (ev : ListEvent) (h : mapGet q rid = none) :
    (listStep sdid rid q ev).1 = q ∧
    (listStep sdid rid q ev).2.filter (isResolutionFor rid) = [] := by
  cases ev with
  | response files error =>
      simp [listStep, ftpListResponse, h, isResolutionFor]
  | timeoutFire =>
      simp [listStep, browseTimeoutFire, h]

theorem listRun_absent (sdid : Option String) (rid : String)
    (evs : List ListEvent) :
    ∀ q : PendMap, mapGet q rid = none →
      (listRun sdid rid q evs).1 = q ∧
      (listRun sdid rid q evs).2.filter (isResolutionFor rid) = [] := by
  induction evs with
  | nil => intro q _; exact ⟨rfl, rfl⟩
  | cons ev rest ih =>
      intro q h
      obtain ⟨hq, hf⟩ := listStep_absent sdid rid q ev h
      obtain ⟨hq2, hf2⟩ := ih (listStep sdid rid q ev).1 (by rw [hq]; exact h)
      constructor
      · simp only [listRun]
        rw [hq2, hq]
      · simp only [listRun, List.filter_append]
        rw [hf, hf2]
        rfl

theorem listStep_present (sdid : Option String) (rid : String) (ts : Nat)
    (pending : PendMap) (ev : ListEvent)
    (h : mapGet pending rid = some (PendingEntry.browse ts)) :
    (listStep sdid rid pending ev).1 = mapDelete pending rid ∧
    ((listStep sdid rid pending ev).2.filter (isResolutionFor rid)).length
      = 1 := by
  cases ev with
  | response files error =>
      cases hoe : optStr error <;>
        simp [listStep, ftpListResponse, h, hoe, isResolutionFor]
  | timeoutFire =>
      simp [listStep, browseTimeoutFire, h, isResolutionFor]

/-- C1: a pending browse correlation id is resolved exactly once by any
nonempty sequence of response events and timeout firings: whichever event
comes first delivers the one resolution effect (a resolve or reject of that
id) and removes the entry; the run delivers no resolution beyond the first
step, and on a table where the id is absent any further response event or
timeout firing leaves the table exactly as it is and emits no resolution
effect — a harmless no-op that cannot re-insert the entry. -/
theorem c1_resolve_at_most_once (sdid : Option String) (rid : String)
    (ts : Nat) (pending : PendMap) (ev : ListEvent) (evs : List ListEvent)
    (h : mapGet pending rid = some (PendingEntry.browse ts)) :
    mapGet (listRun sdid rid pending (ev :: evs)).1 rid = none ∧
    ((listRun sdid rid pending (ev :: evs)).2.filter
        (isResolutionFor rid)).length = 1 ∧
    (listRun sdid rid pending (ev :: evs)).2.filter (isResolutionFor rid) =
      (listStep sdid rid pending ev).2.filter (isResolutionFor rid) ∧
    (∀ (q : PendMap) (ev2 : ListEvent), mapGet q rid = none →
      (listStep sdid rid q ev2).1 = q ∧
      (listStep sdid rid q ev2).2.filter (isResolutionFor rid) = []) := by
  obtain ⟨hdel, hone⟩ := listStep_present sdid rid ts pending ev h
  have habs : mapGet (listStep sdid rid pending ev).1 rid = none := by
    rw [hdel]; exact mapGet_mapDelete_self pending rid
  obtain ⟨hq2, hf2⟩ :=
    listRun_absent sdid rid evs (listStep sdid rid pending ev).1 habs
  refine ⟨?_, ?_, ?_, fun q ev2 hq => listStep_absent sdid rid q ev2 hq⟩
  · simp only [listRun]
    rw [hq2]; exact habs
  · simp only [listRun, List.filter_append]
    rw [hf2, List.append_nil]; exact hone
  · simp only [listRun, List.filter_append]
    rw [hf2, List.append_nil]

theorem c1_resolve_at_most_once_witness :
    mapGet (listRun (some "dev") "r1" [("r1", PendingEntry.browse 10)]
        [ListEvent.response (some []) none, ListEvent.timeoutFire]).1 "r1"
      = none ∧
    ((listRun (some "dev") "r1" [("r1", PendingEntry.browse 10)]
        [ListEvent.response (some []) none, ListEvent.timeoutFire]).2.filter
          (isResolutionFor "r1")).length = 1 :=
  ⟨(c1_resolve_at_most_once (some "dev") "r1" 10
      [("r1", PendingEntry.browse 10)] (ListEvent.response (some []) none)
      [ListEvent.timeoutFire] (by decide)).1,
   (c1_resolve_at_most_once (some "dev") "r1" 10
      [("r1", PendingEntry.browse 10)] (ListEvent.response (some []) none)
      [ListEvent.timeoutFire] (by decide)).2.1⟩

theorem chunk_step_mid (sdid : Option String) (rid : String) (st tid : Nat)
    (hs : Bool) (pending : PendMap) (c : String)
    (h : mapGet pending rid = some (PendingEntry.download st tid hs)) :
    ftpDownloadChunk pending sdid rid (some c) false none =
      (mapSet pending rid
        (PendingEntry.download st tid (hs || decide (c ≠ ""))),
       (if c = "" then [] else [Effect.writeSink rid (base64Decode c)]) ++
         [Effect.broadcastDownloadChunk rid sdid (some c) false none]) := by
  by_cases hc : c = "" <;> simp [ftpDownloadChunk, h, optStr, hc]

theorem chunk_step_last (sdid : Option String) (rid : String) (st tid : Nat)
    (hs : Bool) (pending : PendMap) (c : String)
    (h : mapGet pending rid = some (PendingEntry.download st tid hs)) :
    ftpDownloadChunk pending sdid rid (some c) true none =
      (mapDelete pending rid,
       (if c = "" then [] else [Effect.writeSink rid (base64Decode c)]) ++
         [Effect.endSink rid, Effect.clearTimer tid,
          Effect.broadcastDownloadChunk rid sdid (some c) true none]) := by
  by_cases hc : c = "" <;> simp [ftpDownloadChunk, h, optStr, hc]


theorem base64Decode_empty : base64Decode "" = [] := by decide

theorem writesFor_append (rid : String) (a b : List Effect) :
    writesFor rid (a ++ b) = writesFor rid a ++ writesFor rid b := by
  simp [writesFor]

theorem chunkRun_stream (sdid : Option String) (rid : String) (st tid : Nat)
    (body : List String) :
    ∀ (hs : Bool) (pending : PendMap) (lastc : String),
      mapGet pending rid = some (PendingEntry.download st tid hs) →
      (writesFor rid
          (chunkRun sdid rid pending (chunkEventsOf body lastc)).2).flatten =
        ((body ++ [lastc]).map base64Decode).flatten ∧
      ((chunkRun sdid rid pending (chunkEventsOf body lastc)).2.filter
          (isEndSinkFor rid)).length = 1 ∧
      Effect.clearTimer tid ∈
        (chunkRun sdid rid pending (chunkEventsOf body lastc)).2 ∧
      mapGet (chunkRun sdid rid pending (chunkEventsOf body lastc)).1 rid
        = none ∧
      (∀ k, k ≠ rid →
        mapGet (chunkRun sdid rid pending (chunkEventsOf body lastc)).1 k =
          mapGet pending k) := by
  induction body with
  | nil =>
      intro hs pending lastc h
      have hstep := chunk_step_last sdid rid st tid hs pending lastc h
      have hrun : chunkRun sdid rid pending (chunkEventsOf [] lastc) =
          (mapDelete pending rid,
           (if lastc = "" then []
            else [Effect.writeSink rid (base64Decode lastc)]) ++
             [Effect.endSink rid, Effect.clearTimer tid,
              Effect.broadcastDownloadChunk rid sdid (some lastc) true
                none]) := by
        simp [chunkEventsOf, chunkRun, hstep]
      rw [hrun]
      refine ⟨?_, ?_, ?_, ?_, ?_⟩
      · by_cases hc : lastc = "" <;>
          simp [hc, writesFor, base64Decode_empty]
      · by_cases hc : lastc = "" <;> simp [hc, isEndSinkFor]
      · by_cases hc : lastc = "" <;> simp [hc]
      · exact mapGet_mapDelete_self pending rid
      · intro k hk
        exact mapGet_mapDelete_ne pending rid k hk
  | cons c rest ih =>
      intro hs pending lastc h
      have hstep := chunk_step_mid sdid rid st tid hs pending c h
      have hmem := mapGet_mapSet_self pending rid
        (PendingEntry.download st tid (hs || decide (c ≠ "")))
      obtain ⟨ihw, ihe, ihc2, ihn, ihf⟩ := ih _ _ lastc hmem
      have hrun : chunkRun sdid rid pending (chunkEventsOf (c :: rest) lastc) =
          ((chunkRun sdid rid
              (mapSet pending rid
                (PendingEntry.download st tid (hs || decide (c ≠ ""))))
              (chunkEventsOf rest lastc)).1,
           ((if c = "" then [] else [Effect.writeSink rid (base64Decode c)]) ++
              [Effect.broadcastDownloadChunk rid sdid (some c) false none]) ++
            (chunkRun sdid rid
              (mapSet pending rid
                (PendingEntry.download st tid (hs || decide (c ≠ ""))))
              (chunkEventsOf rest lastc)).2) := by
        simp [chunkEventsOf, chunkRun, hstep]
      rw [hrun]
      refine ⟨?_, ?_, ?_, ?_, ?_⟩
      · rw [writesFor_append, List.flatten_append, ihw]
        have hw1 : (writesFor rid
            ((if c = "" then []
              else [Effect.writeSink rid (base64Decode c)]) ++
              [Effect.broadcastDownloadChunk rid sdid (some c) false
                none])).flatten = base64Decode c := by
          by_cases hc : c = "" <;>
            simp [hc, writesFor, base64Decode_empty]
        rw [hw1]
        simp
      · rw [List.filter_append]
        have h1 : List.filter (isEndSinkFor rid)
            ((if c = "" then []
              else [Effect.writeSink rid (base64Decode c)]) ++
              [Effect.broadcastDownloadChunk rid sdid (some c) false none])
            = [] := by
          by_cases hc : c = "" <;> simp [hc, isEndSinkFor]
        rw [h1, List.nil_append]
        exact ihe
      · exact List.mem_append_right _ ihc2
      · exact ihn
      · intro k hk
        rw [ihf k hk]
        exact mapGet_mapSet_ne pending rid k _ hk

/-- C2: for a pending download correlation id whose response sink has not
yet been written, processing the chunk events of body with isLast false
followed by a final chunk with isLast true (no error field) writes to the
sink exactly the base64-decoded bytes of the chunks concatenated in order,
closes the sink exactly once, clears the associated timeout timer, and
removes the entry from the pending-request table, leaving every other
entry untouched. -/
theorem c2_chunk_streaming (sdid : Option String) (rid : String)
    (st tid : Nat) (pending : PendMap) (body : List String) (lastc : String)
    (h : mapGet pending rid = some (PendingEntry.download st tid false)) :
    (writesFor rid
        (chunkRun sdid rid pending (chunkEventsOf body lastc)).2).flatten =
      ((body ++ [lastc]).map base64Decode).flatten ∧
    ((chunkRun sdid rid pending (chunkEventsOf body lastc)).2.filter
        (isEndSinkFor rid)).length = 1 ∧
    Effect.clearTimer tid ∈
      (chunkRun sdid rid pending (chunkEventsOf body lastc)).2 ∧
    mapGet (chunkRun sdid rid pending (chunkEventsOf body lastc)).1 rid
      = none ∧
    (∀ k, k ≠ rid →
      mapGet (chunkRun sdid rid pending (chunkEventsOf body lastc)).1 k =
        mapGet pending k) :=
  chunkRun_stream sdid rid st tid body false pending lastc h

theorem c2_chunk_streaming_witness :
    (writesFor "r1"
        (chunkRun (some "dev") "r1" [("r1", PendingEntry.download 100 3 false)]
          (chunkEventsOf ["AA=="] "QkI=")).2).flatten =
      (((["AA=="] : List String) ++ ["QkI="]).map base64Decode).flatten ∧
    mapGet (chunkRun (some "dev") "r1"
        [("r1", PendingEntry.download 100 3 false)]
        (chunkEventsOf ["AA=="] "QkI=")).1 "r1" = none :=
  ⟨(c2_chunk_streaming (some "dev") "r1" 100 3
      [("r1", PendingEntry.download 100 3 false)] ["AA=="] "QkI="
      (by decide)).1,
   (c2_chunk_streaming (some "dev") "r1" 100 3
      [("r1", PendingEntry.download 100 3 false)] ["AA=="] "QkI="
      (by decide)).2.2.2.1⟩

theorem activityLe_trans : ∀ a b c : String × Device,
    activityLe a b = true → activityLe b c = true → activityLe a c = true := by
  intro a b c hab hbc
  simp only [activityLe, decide_eq_true_eq] at hab hbc ⊢
  omega

theorem activityLe_total : ∀ a b : String × Device,
    (activityLe a b || activityLe b a) = true := by
  intro a b
  simp only [activityLe, Bool.or_eq_true, decide_eq_true_eq]
  omega

theorem trim_excess (kept : List (String × Device))
    (hkeptnd : (kept.map Prod.fst).Nodup) (t : Nat) :
    (kept.filter (fun kv =>
        decide (kv.1 ∉
          ((kept.mergeSort activityLe).take t).map Prod.fst))).length
      = kept.length - t ∧
    (∀ kv ∈ kept.filter (fun kv =>
        decide (kv.1 ∉
          ((kept.mergeSort activityLe).take t).map Prod.fst)),
      ∀ kv2 ∈ kept, kv2 ∉ kept.filter (fun kv =>
        decide (kv.1 ∉
          ((kept.mergeSort activityLe).take t).map Prod.fst)) →
      effectiveActivity kv2.2 ≤ effectiveActivity kv.2) := by
  set sorted := kept.mergeSort activityLe with hsorted
  set rk := (sorted.take t).map Prod.fst with hrk
  set q := fun kv : String × Device => decide (kv.1 ∉ rk) with hq
  have hperm : sorted.Perm kept := List.mergeSort_perm kept activityLe
  have hpair : sorted.Pairwise (fun a b => activityLe a b = true) :=
    List.sorted_mergeSort activityLe_trans activityLe_total kept
  have hsortednd : (sorted.map Prod.fst).Nodup :=
    ((hperm.map Prod.fst).nodup_iff).mpr hkeptnd
  have hsplit : sorted.take t ++ sorted.drop t = sorted :=
    List.take_append_drop t sorted
  have hdisj : ((sorted.take t).map Prod.fst).Disjoint
      ((sorted.drop t).map Prod.fst) := by
    have hnd2 : (((sorted.take t).map Prod.fst) ++
        ((sorted.drop t).map Prod.fst)).Nodup := by
      rw [← List.map_append, hsplit]
      exact hsortednd
    exact (List.nodup_append.mp hnd2).2.2
  have htake_rk : ∀ x ∈ sorted.take t, x.1 ∈ rk := fun x hx =>
    List.mem_map_of_mem Prod.fst hx
  have hdrop_not : ∀ y ∈ sorted.drop t, y.1 ∉ rk := by
    intro y hy hmem
    exact hdisj hmem (List.mem_map_of_mem Prod.fst hy)
  have hfilter_sorted : sorted.filter q = sorted.drop t := by
    conv_lhs => rw [← hsplit]
    rw [List.filter_append]
    have h1 : (sorted.take t).filter q = [] := by
      refine List.filter_eq_nil_iff.mpr ?_
      intro a ha
      simp only [hq, decide_eq_true_eq, not_not]
      exact htake_rk a ha
    have h2 : (sorted.drop t).filter q = sorted.drop t := by
      refine List.filter_eq_self.mpr ?_
      intro a ha
      simp only [hq, decide_eq_true_eq]
      exact hdrop_not a ha
    rw [h1, h2, List.nil_append]
  have hresperm : (kept.filter q).Perm (sorted.filter q) :=
    (hperm.filter q).symm
  constructor
  · rw [hresperm.length_eq, hfilter_sorted, List.length_drop,
      hperm.length_eq]
  · intro kv hkv kv2 hkv2 hnm
    have hkv_kept : kv ∈ kept := (List.mem_filter.mp hkv).1
    have hkvq : q kv = true := (List.mem_filter.mp hkv).2
    have hkv2q : ¬ q kv2 = true := fun hq2 =>
      hnm (List.mem_filter.mpr ⟨hkv2, hq2⟩)
    have hkv2rk : kv2.1 ∈ rk := by
      simp only [hq, decide_eq_true_eq, not_not] at hkv2q
      exact hkv2q
    have hkv2sorted : kv2 ∈ sorted := hperm.mem_iff.mpr hkv2
    obtain ⟨x, hxtake, hx1⟩ := List.mem_map.mp hkv2rk
    have hxsorted : x ∈ sorted :=
      List.Sublist.mem hxtake (List.take_sublist t sorted)
    have hx_eq : x = kv2 :=
      List.inj_on_of_nodup_map hsortednd hxsorted hkv2sorted hx1
    have hkv2take : kv2 ∈ sorted.take t := hx_eq ▸ hxtake
    have hkvsorted : kv ∈ sorted := hperm.mem_iff.mpr hkv_kept
    have hkvdrop : kv ∈ sorted.drop t := by
      rcases List.mem_append.mp (by rw [hsplit]; exact hkvsorted) with h | h
      · exfalso
        have hrkmem : kv.1 ∈ rk := htake_rk kv h
        simp only [hq, decide_eq_true_eq] at hkvq
        exact hkvq hrkmem
      · exact h
    have hpapp : List.Pairwise (fun a b => activityLe a b = true)
        (sorted.take t ++ sorted.drop t) := by
      rw [hsplit]; exact hpair
    have hle := (List.pairwise_append.mp hpapp).2.2 kv2 hkv2take kv hkvdrop
    simpa [activityLe, decide_eq_true_eq] using hle

/-- C7: the eviction sweep first removes exactly the device records whose
activity timestamp is older than now minus DEVICE_TTL and no others; if
more than MAX_DEVICES records remain it removes exactly the excess,
least-recently-active first, so the result is a subsequence of the
registry of size at most MAX_DEVICES (exactly MAX_DEVICES when the
non-expired records exceed the cap, and exactly the non-expired records
otherwise), and every surviving record is at least as recently active as
every removed one. -/
theorem c7_eviction_sweep (now : Nat) (devices : DevMap)
    (hnd : (devices.map Prod.fst).Nodup) :
    ((cleanupStaleDevices now devices).1).Sublist devices ∧
    (∀ kv ∈ devices, DEVICE_TTL < now - effectiveActivity kv.2 →
      kv ∉ (cleanupStaleDevices now devices).1) ∧
    ((devices.filter (fun kv =>
        decide (now - effectiveActivity kv.2 ≤ DEVICE_TTL))).length
        ≤ MAX_DEVICES →
      (cleanupStaleDevices now devices).1 =
        devices.filter (fun kv =>
          decide (now - effectiveActivity kv.2 ≤ DEVICE_TTL))) ∧
    (MAX_DEVICES < (devices.filter (fun kv =>
        decide (now - effectiveActivity kv.2 ≤ DEVICE_TTL))).length →
      ((cleanupStaleDevices now devices).1).length = MAX_DEVICES) ∧
    ((cleanupStaleDevices now devices).1).length ≤ MAX_DEVICES ∧
    (∀ kv ∈ (cleanupStaleDevices now devices).1, ∀ kv2 ∈ devices,
      kv2 ∉ (cleanupStaleDevices now devices).1 →
      effectiveActivity kv2.2 ≤ effectiveActivity kv.2) := by
  by_cases hlen : MAX_DEVICES < (devices.filter (fun kv =>
      decide (now - effectiveActivity kv.2 ≤ DEVICE_TTL))).length
  case neg =>
    have hres : (cleanupStaleDevices now devices).1 =
        devices.filter (fun kv =>
          decide (now - effectiveActivity kv.2 ≤ DEVICE_TTL)) := by
      unfold cleanupStaleDevices
      dsimp only
      rw [if_neg hlen]
    rw [hres]
    refine ⟨List.filter_sublist devices, ?_, fun _ => rfl,
      fun hc => absurd hc hlen, by omega, ?_⟩
    · intro kv hkv hexp hmem
      have hpkv := (List.mem_filter.mp hmem).2
      simp only [decide_eq_true_eq] at hpkv
      omega
    · intro kv hkv kv2 hkv2 hnmem
      have h1 := (List.mem_filter.mp hkv).2
      have h2 : ¬ (decide (now - effectiveActivity kv2.2 ≤ DEVICE_TTL)
          = true) := fun hq2 => hnmem (List.mem_filter.mpr ⟨hkv2, hq2⟩)
      simp only [decide_eq_true_eq] at h1 h2
      omega
  case pos =>
    have hkeptnd : ((devices.filter (fun kv =>
        decide (now - effectiveActivity kv.2 ≤ DEVICE_TTL))).map
          Prod.fst).Nodup :=
      List.Nodup.sublist ((List.filter_sublist devices).map Prod.fst) hnd
    obtain ⟨hlen2, hsurv⟩ := trim_excess
      (devices.filter (fun kv =>
        decide (now - effectiveActivity kv.2 ≤ DEVICE_TTL)))
      hkeptnd
      ((devices.filter (fun kv =>
        decide (now - effectiveActivity kv.2 ≤ DEVICE_TTL))).length
        - MAX_DEVICES)
    have hres : (cleanupStaleDevices now devices).1 =
        (devices.filter (fun kv =>
          decide (now - effectiveActivity kv.2 ≤ DEVICE_TTL))).filter
          (fun kv => decide (kv.1 ∉
            (((devices.filter (fun kv =>
              decide (now - effectiveActivity kv.2 ≤ DEVICE_TTL))).mergeSort
                activityLe).take
              ((devices.filter (fun kv =>
                decide (now - effectiveActivity kv.2 ≤ DEVICE_TTL))).length
                - MAX_DEVICES)).map Prod.fst)) := by
      unfold cleanupStaleDevices
      dsimp only
      rw [if_pos hlen]
    rw [hres]
    refine ⟨(List.filter_sublist _).trans (List.filter_sublist devices),
      ?_, fun hc => absurd hlen (by omega), fun _ => by omega, by omega, ?_⟩
    · intro kv hkv hexp hmem
      have hpkv := (List.mem_filter.mp ((List.mem_filter.mp hmem).1)).2
      simp only [decide_eq_true_eq] at hpkv
      omega
    · intro kv hkv kv2 hkv2 hnm
      by_cases hk2 : kv2 ∈ devices.filter (fun kv =>
          decide (now - effectiveActivity kv.2 ≤ DEVICE_TTL))
      · exact hsurv kv hkv kv2 hk2 hnm
      · have hp2 : ¬ (decide (now - effectiveActivity kv2.2 ≤ DEVICE_TTL)
            = true) := fun hq2 => hk2 (List.mem_filter.mpr ⟨hkv2, hq2⟩)
        have hp1 := (List.mem_filter.mp ((List.mem_filter.mp hkv).1)).2
        simp only [decide_eq_true_eq] at hp1 hp2
        omega

def c7DevA : Device :=
  { id := "a", name := "A", type := "android", socketId := some "s1",
    status := "online", connectedAt := some 100, lastActivity := some 100,
    ipAddress := none }

def c7DevB : Device :=
  { id := "b", name := "B", type := "android", socketId := some "s2",
    status := "online", connectedAt := some 1900000,
    lastActivity := some 1900000, ipAddress := none }

theorem c7_eviction_sweep_witness :
    (cleanupStaleDevices 2000000 [("a", c7DevA), ("b", c7DevB)]).1 =
      [("a", c7DevA), ("b", c7DevB)].filter (fun kv =>
        decide (2000000 - effectiveActivity kv.2 ≤ DEVICE_TTL)) :=
  (c7_eviction_sweep 2000000 [("a", c7DevA), ("b", c7DevB)]
    (by decide)).2.2.1 (by decide)
